import Mathlib

/-!
Shallow embedding of the Pediatric Diabetes Risk Calculator core
(`src/app.py`, prediction section, lines 123-195): feature encoding,
threshold suggestions, and the single-factor what-if (counterfactual)
analysis.  Python floats are modelled as rationals; Python `round(x, 2)`
(round-half-to-even) is modelled exactly on rationals.  The externally
loaded classifier (`model.pkl`, not part of the repository source) is a
parameter: a pair of functions `predict` / `predict_proba`.
-/

namespace DiabetesApp

/-- Python `round` to the nearest integer, halves to the even neighbour
(banker's rounding), modelled on rationals. -/
def roundHalfEven (q : ℚ) : ℤ :=
  if q - ⌊q⌋ < 1/2 then ⌊q⌋
  else if (1:ℚ)/2 < q - ⌊q⌋ then ⌊q⌋ + 1
  else if ⌊q⌋ % 2 = 0 then ⌊q⌋ else ⌊q⌋ + 1

/-- Python `round(x, 2)`: round to 2 decimal places. -/
def round2 (q : ℚ) : ℚ := (roundHalfEven (q * 100) : ℚ) / 100

/-- The `sex` selectbox options (line 116). -/
inductive Sex
  | Male
  | Female
deriving DecidableEq, Repr

/-- The `activity` selectbox options (line 117). -/
inductive ActivityLevel
  | Sedentary
  | Moderate
  | Active
deriving DecidableEq, Repr

/-- Raw patient attributes as collected by the form (lines 107-118);
`familyHistory = true` models the "Yes" selectbox choice. -/
structure PatientAttributes where
  age : ℚ
  sex : Sex
  height : ℚ
  weight : ℚ
  glucose : ℚ
  insulin : ℚ
  bloodPressure : ℚ
  activity : ActivityLevel
  familyHistory : Bool
deriving DecidableEq, Repr

/-- Line 126: `sex_encoded = 1 if sex == "Male" else 0`. -/
def sex_encoded : Sex → ℚ
  | .Male => 1
  | .Female => 0

/-- Lines 127-128: `activity_map = {"Sedentary": 0, "Moderate": 1, "Active": 2}`. -/
def activity_map : ActivityLevel → ℚ
  | .Sedentary => 0
  | .Moderate => 1
  | .Active => 2

/-- Line 129: `family_history_encoded = 1 if family_history == "Yes" else 0`. -/
def family_history_encoded (fh : Bool) : ℚ := if fh then 1 else 0

/-- Line 124, before rounding: `weight / ((height / 100) ** 2)`. -/
def bmiRaw (a : PatientAttributes) : ℚ := a.weight / ((a.height / 100) ^ 2)

/-- Line 124: `bmi = round(weight / ((height / 100) ** 2), 2)`. -/
def bmiOf (a : PatientAttributes) : ℚ := round2 (bmiRaw a)

/-- The one-row DataFrame `input_data` (lines 131-137): 8 named numeric
columns in the fixed order Age, Sex, BMI, Glucose, Insulin,
BloodPressure, PhysicalActivityLevel, FamilyHistory. -/
structure InputData where
  Age : ℚ
  Sex : ℚ
  BMI : ℚ
  Glucose : ℚ
  Insulin : ℚ
  BloodPressure : ℚ
  PhysicalActivityLevel : ℚ
  FamilyHistory : ℚ
deriving DecidableEq, Repr

/-- The single row of `input_data` in DataFrame column order (line 131-137). -/
def InputData.toRow (v : InputData) : List ℚ :=
  [v.Age, v.Sex, v.BMI, v.Glucose, v.Insulin,
   v.BloodPressure, v.PhysicalActivityLevel, v.FamilyHistory]

/-- Failure of the encoding step.  At `height = 0` Python evaluates
`weight / 0.0` on line 124 and raises `ZeroDivisionError`; the source has
no other failure path and no `InvalidAttributeError` anywhere. -/
inductive EncodeError
  | zeroDivisionError
deriving DecidableEq, Repr

/-- Lines 124-137 as a function from raw attributes to the encoded row:
BMI from weight and height rounded to 2 decimals, categorical encodings,
fixed column order.  The only failure is Python's `ZeroDivisionError`
at `height = 0`; any non-zero height (negative included, since it is
squared) encodes without error. -/
def encode (a : PatientAttributes) : Except EncodeError InputData :=
  if a.height = 0 then .error .zeroDivisionError
  else .ok
    { Age := a.age
      Sex := sex_encoded a.sex
      BMI := bmiOf a
      Glucose := a.glucose
      Insulin := a.insulin
      BloodPressure := a.bloodPressure
      PhysicalActivityLevel := activity_map a.activity
      FamilyHistory := family_history_encoded a.familyHistory }

/-- The externally supplied classifier (loaded from `model.pkl` on
line 9, outside the repository source): `model.predict(df)[0]` and
`model.predict_proba(df)[0][1]` as functions of the encoded row. -/
structure Model where
  predict : InputData → ℤ
  predict_proba : InputData → ℚ

/-- The five health-suggestion messages (lines 152-161). -/
inductive Suggestion
  | bmiHigh
  | glucoseElevated
  | insulinElevated
  | highBloodPressure
  | familyHistoryRisk
deriving DecidableEq, Repr

/-- The Health Suggestions block (lines 152-161): five independent `if`
statements, evaluated top to bottom; the family-history test is Python
truthiness of `family_history_encoded` (non-zero). -/
def suggestionsOf (bmi glucose insulin blood_pressure fh_encoded : ℚ) :
    List Suggestion :=
  (if bmi > 22 then [Suggestion.bmiHigh] else []) ++
  (if glucose > 110 then [Suggestion.glucoseElevated] else []) ++
  (if insulin > 25 then [Suggestion.insulinElevated] else []) ++
  (if blood_pressure > 120 then [Suggestion.highBloodPressure] else []) ++
  (if fh_encoded ≠ 0 then [Suggestion.familyHistoryRisk] else [])

/-- The three factors probed by the what-if analysis (the keys of the
`changes` dict, lines 171-189). -/
inductive Factor
  | BMI
  | Glucose
  | Insulin
deriving DecidableEq, Repr

/-- Position of a factor in the fixed evaluation order BMI, Glucose,
Insulin (the order of the three `if` blocks, lines 173-189). -/
def factorIdx : Factor → ℕ
  | .BMI => 0
  | .Glucose => 1
  | .Insulin => 2

/-- State of the what-if loop: the working copy `what_if_data`
(line 168), the probe rows actually sent to `model.predict_proba`
(in order), and the `changes` dict as an insertion-ordered list. -/
structure WhatIfState where
  what_if_data : InputData
  probes : List (Factor × InputData)
  changes : List (Factor × ℚ)
deriving Repr

/-- Lines 173-177: if `bmi > 22`, set `what_if_data["BMI"] = 20`, probe,
record `probability - new_prob_bmi`, then reset `what_if_data["BMI"] = bmi`. -/
def bmiStep (m : Model) (probability bmi : ℚ) (s : WhatIfState) : WhatIfState :=
  if bmi > 22 then
    let d := { s.what_if_data with BMI := 20 }
    let new_prob_bmi := m.predict_proba d
    { what_if_data := { d with BMI := bmi }
      probes := s.probes ++ [(Factor.BMI, d)]
      changes := s.changes ++ [(Factor.BMI, probability - new_prob_bmi)] }
  else s

/-- Lines 179-183: if `glucose > 110`, set `what_if_data["Glucose"] = 100`,
probe, record, reset to `glucose`. -/
def glucoseStep (m : Model) (probability glucose : ℚ) (s : WhatIfState) : WhatIfState :=
  if glucose > 110 then
    let d := { s.what_if_data with Glucose := 100 }
    let new_prob_glucose := m.predict_proba d
    { what_if_data := { d with Glucose := glucose }
      probes := s.probes ++ [(Factor.Glucose, d)]
      changes := s.changes ++ [(Factor.Glucose, probability - new_prob_glucose)] }
  else s

/-- Lines 185-189: if `insulin > 25`, set `what_if_data["Insulin"] = 20`,
probe, record, reset to `insulin`. -/
def insulinStep (m : Model) (probability insulin : ℚ) (s : WhatIfState) : WhatIfState :=
  if insulin > 25 then
    let d := { s.what_if_data with Insulin := 20 }
    let new_prob_insulin := m.predict_proba d
    { what_if_data := { d with Insulin := insulin }
      probes := s.probes ++ [(Factor.Insulin, d)]
      changes := s.changes ++ [(Factor.Insulin, probability - new_prob_insulin)] }
  else s

/-- Lines 166-189: the what-if loop over a copy of `input_data`
(`what_if_data = input_data.copy()`, line 168), the three conditional
mutate-probe-restore blocks in order. -/
def whatIfRun (m : Model) (input_data : InputData)
    (probability bmi glucose insulin : ℚ) : WhatIfState :=
  insulinStep m probability insulin
    (glucoseStep m probability glucose
      (bmiStep m probability bmi
        { what_if_data := input_data, probes := [], changes := [] }))

/-- Python `max(changes, key=changes.get)` over an insertion-ordered dict:
scans left to right, the current best is replaced only by a strictly
greater value, so the first key attaining the maximum wins (line 193). -/
def maxBySecond : List (Factor × ℚ) → Option (Factor × ℚ)
  | [] => none
  | p :: rest =>
    match maxBySecond rest with
    | none => some p
    | some q => some (if q.2 > p.2 then q else p)

/-- Lines 191-194: `if changes:` pick `best_factor = max(changes,
key=changes.get)` and its delta; `none` when `changes` is empty. -/
def what_if (m : Model) (input_data : InputData)
    (probability bmi glucose insulin : ℚ) : Option (Factor × ℚ) :=
  maxBySecond (whatIfRun m input_data probability bmi glucose insulin).changes

/-- Line 194: the displayed drop is `changes[best_factor] * 100`
(percentage points; formatting to 1 decimal is presentation only). -/
def dropPercent (p : Factor × ℚ) : ℚ := p.2 * 100

/-- Everything the prediction section computes for one submission. -/
structure AssessmentResult where
  prediction : ℤ
  probability : ℚ
  suggestions : List Suggestion
  counterfactual : Option (Factor × ℚ)
deriving Repr

/-- The whole prediction section (lines 123-195): encode, classify
(`prediction`, `probability`), suggestions, and — only when
`prediction == 1` — the what-if analysis.  The local variables `bmi`,
`glucose`, `insulin` used by the suggestion block and the what-if loop
are exactly the values placed in the encoded row. -/
def assess (m : Model) (a : PatientAttributes) : Except EncodeError AssessmentResult :=
  match encode a with
  | .error e => .error e
  | .ok input_data =>
    let prediction := m.predict input_data
    let probability := m.predict_proba input_data
    let suggestions :=
      suggestionsOf input_data.BMI a.glucose a.insulin a.bloodPressure
        (family_history_encoded a.familyHistory)
    let counterfactual :=
      if prediction = 1 then
        what_if m input_data probability input_data.BMI a.glucose a.insulin
      else none
    .ok { prediction := prediction
          probability := probability
          suggestions := suggestions
          counterfactual := counterfactual }

/-! ## Concrete inputs and classifiers used to exercise the theorems -/

/-- The end-to-end scenario attributes: age 10, Male, height 120 cm,
weight 35 kg, glucose 130, insulin 30, blood pressure 95, Sedentary,
family history yes. -/
def scenarioAttrs : PatientAttributes :=
  ⟨10, .Male, 120, 35, 130, 30, 95, .Sedentary, true⟩

/-- The BMI-correctness attributes: height 120 cm, weight 30.72 kg. -/
def bmiAttrs : PatientAttributes :=
  ⟨10, .Male, 120, 3072/100, 130, 30, 95, .Sedentary, true⟩

/-- Attributes with a negative height (-120 cm), weight 30.72 kg. -/
def negHeightAttrs : PatientAttributes :=
  ⟨10, .Male, -120, 3072/100, 130, 30, 95, .Sedentary, true⟩

/-- Attributes whose raw BMI is 22.004 (height 100 cm, weight 22.004 kg):
strictly above the threshold before rounding, exactly 22.00 after. -/
def boundaryAttrs : PatientAttributes :=
  ⟨10, .Male, 100, 5501/250, 130, 30, 95, .Sedentary, true⟩

/-- The row `boundaryAttrs` encodes to. -/
def boundaryRow : InputData :=
  ⟨10, 1, 22, 130, 30, 95, 0, 1⟩

/-- A classifier stub returning fixed outputs, used to exercise the
theorems at concrete inputs. -/
def constModel (k : ℤ) (p : ℚ) : Model :=
  ⟨fun _ => k, fun _ => p⟩

/-- A classifier stub extensionally, but not definitionally, equal to
`constModel 1 (1/2)`. -/
def constModelAlt : Model :=
  ⟨fun _ => 0 + 1, fun v => v.BMI * 0 + 1/2⟩

/-- A concrete encoded row (the encoding of `scenarioAttrs`). -/
def scenarioRow : InputData :=
  ⟨10, 1, 2431/100, 130, 30, 95, 0, 1⟩

/-- A concrete encoded row (the encoding of `negHeightAttrs`). -/
def negHeightRow : InputData :=
  ⟨10, 1, 2133/100, 130, 30, 95, 0, 1⟩

/-! ## General lemmas about the selection and the what-if loop -/

lemma maxBySecond_eq_none_iff (l : List (Factor × ℚ)) :
    maxBySecond l = none ↔ l = [] := by
  cases l with
  | nil => simp [maxBySecond]
  | cons p rest =>
    simp only [maxBySecond]
    cases hq : maxBySecond rest <;> simp

/-- The selection returns an element whose value bounds every entry, and
everything strictly before it in the list has a strictly smaller value:
the first entry attaining the maximum wins. -/
lemma maxBySecond_spec :
    ∀ (l : List (Factor × ℚ)) (p : Factor × ℚ), maxBySecond l = some p →
      (∀ q ∈ l, q.2 ≤ p.2) ∧
      ∃ l1 l2, l = l1 ++ p :: l2 ∧ ∀ q ∈ l1, q.2 < p.2 := by
  intro l
  induction l with
  | nil => intro p h; simp [maxBySecond] at h
  | cons a rest ih =>
    intro p h
    simp only [maxBySecond] at h
    cases hq : maxBySecond rest with
    | none =>
      rw [hq] at h
      simp only [Option.some.injEq] at h
      subst h
      have hrest : rest = [] := (maxBySecond_eq_none_iff rest).mp hq
      subst hrest
      exact ⟨by simp, [], [], rfl, by simp⟩
    | some q =>
      rw [hq] at h
      simp only [Option.some.injEq] at h
      obtain ⟨hbound, l1, l2, hdecomp, hsmall⟩ := ih q hq
      by_cases hgt : q.2 > a.2
      · rw [if_pos hgt] at h
        subst h
        refine ⟨?_, a :: l1, l2, by rw [hdecomp]; simp, ?_⟩
        · intro x hx
          rcases List.mem_cons.mp hx with rfl | hx
          · exact le_of_lt hgt
          · exact hbound x hx
        · intro x hx
          rcases List.mem_cons.mp hx with rfl | hx
          · exact hgt
          · exact hsmall x hx
      · rw [if_neg hgt] at h
        subst h
        refine ⟨?_, [], rest, rfl, by simp⟩
        intro x hx
        rcases List.mem_cons.mp hx with rfl | hx
        · exact le_refl _
        · exact le_trans (hbound x hx) (not_lt.mp hgt)

/-- The `changes` dict holds the factors in the fixed evaluation order
BMI, Glucose, Insulin. -/
lemma whatIfRun_changes_pairwise (m : Model) (v : InputData) (p0 b g i : ℚ) :
    ((whatIfRun m v p0 b g i).changes).Pairwise
      (fun x y => factorIdx x.1 < factorIdx y.1) := by
  unfold whatIfRun insulinStep glucoseStep bmiStep
  split_ifs <;> simp [factorIdx]

lemma whatIfRun_mem_BMI (m : Model) (v : InputData) (p0 b g i : ℚ) :
    (∃ d, (Factor.BMI, d) ∈ (whatIfRun m v p0 b g i).changes) ↔ b > 22 := by
  unfold whatIfRun insulinStep glucoseStep bmiStep
  split_ifs with h1 h2 h3 <;> simp_all

lemma whatIfRun_mem_Glucose (m : Model) (v : InputData) (p0 b g i : ℚ) :
    (∃ d, (Factor.Glucose, d) ∈ (whatIfRun m v p0 b g i).changes) ↔ g > 110 := by
  unfold whatIfRun insulinStep glucoseStep bmiStep
  split_ifs with h1 h2 h3 <;> simp_all

lemma whatIfRun_mem_Insulin (m : Model) (v : InputData) (p0 b g i : ℚ) :
    (∃ d, (Factor.Insulin, d) ∈ (whatIfRun m v p0 b g i).changes) ↔ i > 25 := by
  unfold whatIfRun insulinStep glucoseStep bmiStep
  split_ifs with h1 h2 h3 <;> simp_all

lemma whatIfRun_changes_nil (m : Model) (v : InputData) (p0 b g i : ℚ)
    (hb : ¬ b > 22) (hg : ¬ g > 110) (hi : ¬ i > 25) :
    (whatIfRun m v p0 b g i).changes = [] := by
  unfold whatIfRun insulinStep glucoseStep bmiStep
  rw [if_neg hb, if_neg hg, if_neg hi]

lemma mem_suggestionsOf_bmiHigh (bmi g i bp fh : ℚ) :
    Suggestion.bmiHigh ∈ suggestionsOf bmi g i bp fh ↔ bmi > 22 := by
  unfold suggestionsOf
  split_ifs <;> simp_all

lemma mem_suggestionsOf_glucose (bmi g i bp fh : ℚ) :
    Suggestion.glucoseElevated ∈ suggestionsOf bmi g i bp fh ↔ g > 110 := by
  unfold suggestionsOf
  split_ifs <;> simp_all

lemma mem_suggestionsOf_insulin (bmi g i bp fh : ℚ) :
    Suggestion.insulinElevated ∈ suggestionsOf bmi g i bp fh ↔ i > 25 := by
  unfold suggestionsOf
  split_ifs <;> simp_all

lemma mem_suggestionsOf_bp (bmi g i bp fh : ℚ) :
    Suggestion.highBloodPressure ∈ suggestionsOf bmi g i bp fh ↔ bp > 120 := by
  unfold suggestionsOf
  split_ifs <;> simp_all

lemma mem_suggestionsOf_family (bmi g i bp fh : ℚ) :
    Suggestion.familyHistoryRisk ∈ suggestionsOf bmi g i bp fh ↔ fh ≠ 0 := by
  unfold suggestionsOf
  split_ifs <;> simp_all

lemma ite_single_sublist {α : Type} (c : Prop) [Decidable c] (x : α) :
    List.Sublist (if c then [x] else []) [x] := by
  split_ifs <;> simp

/-- The emitted suggestions are a sublist of the full fixed table order. -/
lemma suggestionsOf_sublist (bmi g i bp fh : ℚ) :
    List.Sublist (suggestionsOf bmi g i bp fh)
      [Suggestion.bmiHigh, Suggestion.glucoseElevated, Suggestion.insulinElevated,
       Suggestion.highBloodPressure, Suggestion.familyHistoryRisk] := by
  show List.Sublist (suggestionsOf bmi g i bp fh)
    ([Suggestion.bmiHigh] ++ [Suggestion.glucoseElevated] ++ [Suggestion.insulinElevated] ++
     [Suggestion.highBloodPressure] ++ [Suggestion.familyHistoryRisk])
  exact ((((ite_single_sublist _ _).append (ite_single_sublist _ _)).append
    (ite_single_sublist _ _)).append (ite_single_sublist _ _)).append
    (ite_single_sublist _ _)

/-! ## Evaluation lemmas at concrete inputs -/

/-- Rounding to 2 decimals when the fractional part of `q * 100` is
below one half. -/
lemma round2_eq_low (q : ℚ) (n : ℤ) (h1 : (n : ℚ) ≤ q * 100)
    (h2 : q * 100 - n < 1/2) :
    round2 q = (n : ℚ) / 100 := by
  have hf : ⌊q * 100⌋ = n := Int.floor_eq_iff.mpr ⟨h1, by linarith⟩
  unfold round2 roundHalfEven
  rw [hf, if_pos (by linarith)]

/-- Rounding to 2 decimals when the fractional part of `q * 100` is
above one half. -/
lemma round2_eq_high (q : ℚ) (n : ℤ) (h1 : (n : ℚ) ≤ q * 100)
    (h2 : q * 100 < n + 1) (h3 : 1/2 < q * 100 - n) :
    round2 q = ((n : ℚ) + 1) / 100 := by
  have hf : ⌊q * 100⌋ = n := Int.floor_eq_iff.mpr ⟨h1, h2⟩
  unfold round2 roundHalfEven
  rw [hf, if_neg (by linarith), if_pos (by linarith)]
  push_cast
  ring

lemma bmiOf_scenario : bmiOf scenarioAttrs = 2431/100 := by
  have h : bmiRaw scenarioAttrs = 875/36 := by
    unfold bmiRaw scenarioAttrs
    norm_num
  unfold bmiOf
  rw [h, round2_eq_high (875/36) 2430 (by norm_num) (by norm_num) (by norm_num)]
  norm_num

lemma bmiRaw_bmiAttrs : bmiRaw bmiAttrs = 64/3 := by
  unfold bmiRaw bmiAttrs
  norm_num

lemma bmiOf_bmiAttrs : bmiOf bmiAttrs = 2133/100 := by
  unfold bmiOf
  rw [bmiRaw_bmiAttrs, round2_eq_low (64/3) 2133 (by norm_num) (by norm_num)]
  norm_num

lemma bmiRaw_negHeight : bmiRaw negHeightAttrs = 64/3 := by
  unfold bmiRaw negHeightAttrs
  norm_num

lemma bmiOf_negHeight : bmiOf negHeightAttrs = 2133/100 := by
  unfold bmiOf
  rw [bmiRaw_negHeight, round2_eq_low (64/3) 2133 (by norm_num) (by norm_num)]
  norm_num

lemma bmiRaw_boundary : bmiRaw boundaryAttrs = 5501/250 := by
  unfold bmiRaw boundaryAttrs
  norm_num

lemma bmiOf_boundary : bmiOf boundaryAttrs = 22 := by
  unfold bmiOf
  rw [bmiRaw_boundary, round2_eq_low (5501/250) 2200 (by norm_num) (by norm_num)]
  norm_num

lemma encode_scenario : encode scenarioAttrs = .ok scenarioRow := by
  unfold encode
  rw [if_neg (show ¬ scenarioAttrs.height = 0 by norm_num [scenarioAttrs])]
  unfold scenarioRow
  simp only [Except.ok.injEq, InputData.mk.injEq]
  exact ⟨rfl, rfl, bmiOf_scenario, rfl, rfl, rfl, rfl, rfl⟩

lemma encode_negHeight : encode negHeightAttrs = .ok negHeightRow := by
  unfold encode
  rw [if_neg (show ¬ negHeightAttrs.height = 0 by norm_num [negHeightAttrs])]
  unfold negHeightRow
  simp only [Except.ok.injEq, InputData.mk.injEq]
  exact ⟨rfl, rfl, bmiOf_negHeight, rfl, rfl, rfl, rfl, rfl⟩

lemma encode_boundary : encode boundaryAttrs = .ok boundaryRow := by
  unfold encode
  rw [if_neg (show ¬ boundaryAttrs.height = 0 by norm_num [boundaryAttrs])]
  unfold boundaryRow
  simp only [Except.ok.injEq, InputData.mk.injEq]
  exact ⟨rfl, rfl, bmiOf_boundary, rfl, rfl, rfl, rfl, rfl⟩

/-! ## Claim theorems -/

/-- C1: whenever the what-if analysis records a non-empty `changes` dict
(an AtRisk assessment with a non-empty eligible factor set, lines
166-191), `max(changes, key=changes.get)` (line 193) selects an entry of
the dict whose risk delta (base probability minus perturbed probability)
bounds every recorded delta, and every eligible factor sharing the
maximal delta comes no earlier in the fixed order BMI, Glucose, Insulin
than the selected one. -/
theorem whatIf_selects_max_tie_order (m : Model) (v : InputData) (p0 b g i : ℚ)
    (hne : (whatIfRun m v p0 b g i).changes ≠ []) :
    ∃ f d, what_if m v p0 b g i = some (f, d) ∧
      (f, d) ∈ (whatIfRun m v p0 b g i).changes ∧
      (∀ q ∈ (whatIfRun m v p0 b g i).changes, q.2 ≤ d) ∧
      (∀ q ∈ (whatIfRun m v p0 b g i).changes, q.2 = d → factorIdx f ≤ factorIdx q.1) := by
  obtain ⟨p, hp⟩ : ∃ p, maxBySecond (whatIfRun m v p0 b g i).changes = some p := by
    cases h : maxBySecond (whatIfRun m v p0 b g i).changes with
    | none => exact absurd ((maxBySecond_eq_none_iff _).mp h) hne
    | some p => exact ⟨p, rfl⟩
  obtain ⟨hbound, l1, l2, hdec, hsmall⟩ := maxBySecond_spec _ p hp
  have hpw := whatIfRun_changes_pairwise m v p0 b g i
  refine ⟨p.1, p.2, ?_, ?_, hbound, ?_⟩
  · simpa [what_if] using hp
  · rw [Prod.mk.eta, hdec]
    simp
  · intro q hq heq
    rw [hdec] at hq hpw
    rcases List.mem_append.mp hq with h1 | h2
    · exact absurd heq (ne_of_lt (hsmall q h1))
    · rcases List.mem_cons.mp h2 with rfl | h2
      · exact le_refl _
      · have hrel := (List.pairwise_cons.mp (List.pairwise_append.mp hpw).2.1).1 q h2
        exact le_of_lt hrel

/-- C1 exercised: a constant classifier makes all three deltas equal, and
the tie goes to BMI, the first factor in the fixed order. -/
theorem whatIf_selects_max_tie_order_witness :
    (whatIfRun (constModel 1 0) scenarioRow 0 (2431/100) 130 30).changes ≠ [] ∧
    (∃ f d, what_if (constModel 1 0) scenarioRow 0 (2431/100) 130 30 = some (f, d) ∧
      (f, d) ∈ (whatIfRun (constModel 1 0) scenarioRow 0 (2431/100) 130 30).changes ∧
      (∀ q ∈ (whatIfRun (constModel 1 0) scenarioRow 0 (2431/100) 130 30).changes, q.2 ≤ d) ∧
      (∀ q ∈ (whatIfRun (constModel 1 0) scenarioRow 0 (2431/100) 130 30).changes,
        q.2 = d → factorIdx f ≤ factorIdx q.1)) := by
  have hne : (whatIfRun (constModel 1 0) scenarioRow 0 (2431/100) 130 30).changes ≠ [] := by
    obtain ⟨d, hd⟩ := (whatIfRun_mem_BMI (constModel 1 0) scenarioRow 0 (2431/100) 130 30).mpr
      (by norm_num)
    exact List.ne_nil_of_mem hd
  exact ⟨hne, whatIf_selects_max_tie_order (constModel 1 0) scenarioRow 0 (2431/100) 130 30 hne⟩

/-- C9: a non-empty eligible set always yields a counterfactual result
(line 191 tests only `if changes:`), with no positivity requirement on
the selected delta; when every recorded delta is zero or negative, the
reported percentage drop (`changes[best_factor] * 100`, line 194) is
zero or negative as well. -/
theorem whatIf_some_even_nonpositive (m : Model) (v : InputData) (p0 b g i : ℚ)
    (hne : (whatIfRun m v p0 b g i).changes ≠ []) :
    ∃ f d, what_if m v p0 b g i = some (f, d) ∧
      (f, d) ∈ (whatIfRun m v p0 b g i).changes ∧
      ((∀ q ∈ (whatIfRun m v p0 b g i).changes, q.2 ≤ 0) → dropPercent (f, d) ≤ 0) := by
  obtain ⟨p, hp⟩ : ∃ p, maxBySecond (whatIfRun m v p0 b g i).changes = some p := by
    cases h : maxBySecond (whatIfRun m v p0 b g i).changes with
    | none => exact absurd ((maxBySecond_eq_none_iff _).mp h) hne
    | some p => exact ⟨p, rfl⟩
  obtain ⟨hbound, l1, l2, hdec, hsmall⟩ := maxBySecond_spec _ p hp
  have hmem : p ∈ (whatIfRun m v p0 b g i).changes := by
    rw [hdec]
    simp
  refine ⟨p.1, p.2, ?_, ?_, ?_⟩
  · simpa [what_if] using hp
  · rwa [Prod.mk.eta]
  · intro hall
    have hd : p.2 ≤ 0 := hall p hmem
    have : p.2 * 100 ≤ 0 * 100 := mul_le_mul_of_nonneg_right hd (by norm_num)
    simpa [dropPercent] using this

/-- C9 exercised: with a classifier whose probability never moves, every
delta is zero, yet a counterfactual is still produced and its reported
drop is zero (hence not positive). -/
theorem whatIf_some_even_nonpositive_witness :
    (whatIfRun (constModel 1 (1/2)) scenarioRow (1/2) (2431/100) 130 30).changes ≠ [] ∧
    (∃ f d, what_if (constModel 1 (1/2)) scenarioRow (1/2) (2431/100) 130 30 = some (f, d) ∧
      (f, d) ∈ (whatIfRun (constModel 1 (1/2)) scenarioRow (1/2) (2431/100) 130 30).changes ∧
      ((∀ q ∈ (whatIfRun (constModel 1 (1/2)) scenarioRow (1/2) (2431/100) 130 30).changes,
          q.2 ≤ 0) → dropPercent (f, d) ≤ 0)) := by
  have hne : (whatIfRun (constModel 1 (1/2)) scenarioRow (1/2) (2431/100) 130 30).changes ≠ [] := by
    obtain ⟨d, hd⟩ :=
      (whatIfRun_mem_BMI (constModel 1 (1/2)) scenarioRow (1/2) (2431/100) 130 30).mpr
        (by norm_num)
    exact List.ne_nil_of_mem hd
  exact ⟨hne,
    whatIf_some_even_nonpositive (constModel 1 (1/2)) scenarioRow (1/2) (2431/100) 130 30 hne⟩

/-- C2: when the what-if loop is called the way the prediction section
calls it (the `bmi`, `glucose`, `insulin` variables equal the
corresponding fields of `input_data`), each probe row sent to
`model.predict_proba` is the original encoded row with only its own
factor replaced by the reference value (BMI→20, Glucose→100,
Insulin→20) and every other field unchanged; the working copy ends equal
to the original row (each mutation is restored before the next probe),
and the original row itself is never modified (the loop acts on the copy
made on line 168). -/
theorem whatIf_probes_single_field (m : Model) (v : InputData) (p0 b g i : ℚ)
    (hb : b = v.BMI) (hg : g = v.Glucose) (hi : i = v.Insulin) :
    (whatIfRun m v p0 b g i).probes =
      (if v.BMI > 22 then [(Factor.BMI, { v with BMI := 20 })] else []) ++
      (if v.Glucose > 110 then [(Factor.Glucose, { v with Glucose := 100 })] else []) ++
      (if v.Insulin > 25 then [(Factor.Insulin, { v with Insulin := 20 })] else []) ∧
    (whatIfRun m v p0 b g i).what_if_data = v ∧
    (∀ w, (Factor.BMI, w) ∈ (whatIfRun m v p0 b g i).probes →
      w.BMI = 20 ∧ w.Age = v.Age ∧ w.Sex = v.Sex ∧ w.Glucose = v.Glucose ∧
      w.Insulin = v.Insulin ∧ w.BloodPressure = v.BloodPressure ∧
      w.PhysicalActivityLevel = v.PhysicalActivityLevel ∧ w.FamilyHistory = v.FamilyHistory) ∧
    (∀ w, (Factor.Glucose, w) ∈ (whatIfRun m v p0 b g i).probes →
      w.Glucose = 100 ∧ w.Age = v.Age ∧ w.Sex = v.Sex ∧ w.BMI = v.BMI ∧
      w.Insulin = v.Insulin ∧ w.BloodPressure = v.BloodPressure ∧
      w.PhysicalActivityLevel = v.PhysicalActivityLevel ∧ w.FamilyHistory = v.FamilyHistory) ∧
    (∀ w, (Factor.Insulin, w) ∈ (whatIfRun m v p0 b g i).probes →
      w.Insulin = 20 ∧ w.Age = v.Age ∧ w.Sex = v.Sex ∧ w.BMI = v.BMI ∧
      w.Glucose = v.Glucose ∧ w.BloodPressure = v.BloodPressure ∧
      w.PhysicalActivityLevel = v.PhysicalActivityLevel ∧ w.FamilyHistory = v.FamilyHistory) := by
  subst hb; subst hg; subst hi
  obtain ⟨Ag, Sx, Bm, Gl, Ins, Bp, Pa, Fh⟩ := v
  have hP : (whatIfRun m ⟨Ag, Sx, Bm, Gl, Ins, Bp, Pa, Fh⟩ p0 Bm Gl Ins).probes =
      (if Bm > 22 then [(Factor.BMI, ⟨Ag, Sx, 20, Gl, Ins, Bp, Pa, Fh⟩)] else []) ++
      (if Gl > 110 then [(Factor.Glucose, ⟨Ag, Sx, Bm, 100, Ins, Bp, Pa, Fh⟩)] else []) ++
      (if Ins > 25 then [(Factor.Insulin, ⟨Ag, Sx, Bm, Gl, 20, Bp, Pa, Fh⟩)] else []) := by
    unfold whatIfRun insulinStep glucoseStep bmiStep
    split_ifs <;> rfl
  have hS : (whatIfRun m ⟨Ag, Sx, Bm, Gl, Ins, Bp, Pa, Fh⟩ p0 Bm Gl Ins).what_if_data =
      ⟨Ag, Sx, Bm, Gl, Ins, Bp, Pa, Fh⟩ := by
    unfold whatIfRun insulinStep glucoseStep bmiStep
    split_ifs <;> rfl
  refine ⟨hP, hS, ?_, ?_, ?_⟩ <;>
    · intro w hw
      rw [hP] at hw
      split_ifs at hw <;> simp_all

/-- C2 exercised at the end-to-end scenario row with a concrete
classifier, the hypotheses discharged by reflexivity. -/
theorem whatIf_probes_single_field_witness :
    (whatIfRun (constModel 1 (1/2)) scenarioRow (1/2)
        scenarioRow.BMI scenarioRow.Glucose scenarioRow.Insulin).probes =
      (if scenarioRow.BMI > 22 then
        [(Factor.BMI, { scenarioRow with BMI := 20 })] else []) ++
      (if scenarioRow.Glucose > 110 then
        [(Factor.Glucose, { scenarioRow with Glucose := 100 })] else []) ++
      (if scenarioRow.Insulin > 25 then
        [(Factor.Insulin, { scenarioRow with Insulin := 20 })] else []) ∧
    (whatIfRun (constModel 1 (1/2)) scenarioRow (1/2)
        scenarioRow.BMI scenarioRow.Glucose scenarioRow.Insulin).what_if_data = scenarioRow ∧
    (∀ w, (Factor.BMI, w) ∈ (whatIfRun (constModel 1 (1/2)) scenarioRow (1/2)
        scenarioRow.BMI scenarioRow.Glucose scenarioRow.Insulin).probes →
      w.BMI = 20 ∧ w.Age = scenarioRow.Age ∧ w.Sex = scenarioRow.Sex ∧
      w.Glucose = scenarioRow.Glucose ∧ w.Insulin = scenarioRow.Insulin ∧
      w.BloodPressure = scenarioRow.BloodPressure ∧
      w.PhysicalActivityLevel = scenarioRow.PhysicalActivityLevel ∧
      w.FamilyHistory = scenarioRow.FamilyHistory) ∧
    (∀ w, (Factor.Glucose, w) ∈ (whatIfRun (constModel 1 (1/2)) scenarioRow (1/2)
        scenarioRow.BMI scenarioRow.Glucose scenarioRow.Insulin).probes →
      w.Glucose = 100 ∧ w.Age = scenarioRow.Age ∧ w.Sex = scenarioRow.Sex ∧
      w.BMI = scenarioRow.BMI ∧ w.Insulin = scenarioRow.Insulin ∧
      w.BloodPressure = scenarioRow.BloodPressure ∧
      w.PhysicalActivityLevel = scenarioRow.PhysicalActivityLevel ∧
      w.FamilyHistory = scenarioRow.FamilyHistory) ∧
    (∀ w, (Factor.Insulin, w) ∈ (whatIfRun (constModel 1 (1/2)) scenarioRow (1/2)
        scenarioRow.BMI scenarioRow.Glucose scenarioRow.Insulin).probes →
      w.Insulin = 20 ∧ w.Age = scenarioRow.Age ∧ w.Sex = scenarioRow.Sex ∧
      w.BMI = scenarioRow.BMI ∧ w.Glucose = scenarioRow.Glucose ∧
      w.BloodPressure = scenarioRow.BloodPressure ∧
      w.PhysicalActivityLevel = scenarioRow.PhysicalActivityLevel ∧
      w.FamilyHistory = scenarioRow.FamilyHistory) :=
  whatIf_probes_single_field (constModel 1 (1/2)) scenarioRow (1/2)
    scenarioRow.BMI scenarioRow.Glucose scenarioRow.Insulin rfl rfl rfl

/-- When no factor is eligible the selection runs on an empty dict and
no result is produced. -/
lemma what_if_eq_none (m : Model) (v : InputData) (p0 b g i : ℚ)
    (hb : ¬ b > 22) (hg : ¬ g > 110) (hi : ¬ i > 25) :
    what_if m v p0 b g i = none := by
  unfold what_if
  rw [whatIfRun_changes_nil m v p0 b g i hb hg hi]
  rfl

/-- C3: in the prediction section, the what-if analysis runs only under
`if prediction == 1` (line 166), its `changes` dict holds exactly the
factors among BMI, Glucose, Insulin whose value exceeds the suggestion
threshold (bmi > 22, glucose > 110, insulin > 25 — the same strict
conditions the suggestion block tests), and when no factor qualifies no
counterfactual is produced even though `prediction == 1`. -/
theorem assess_counterfactual_gating (m : Model) (a : PatientAttributes)
    (v : InputData) (hv : encode a = .ok v) :
    ∃ r, assess m a = .ok r ∧
      r.prediction = m.predict v ∧
      (r.counterfactual ≠ none → r.prediction = 1) ∧
      ((∃ d, (Factor.BMI, d) ∈
          (whatIfRun m v (m.predict_proba v) v.BMI a.glucose a.insulin).changes) ↔
        v.BMI > 22) ∧
      ((∃ d, (Factor.Glucose, d) ∈
          (whatIfRun m v (m.predict_proba v) v.BMI a.glucose a.insulin).changes) ↔
        a.glucose > 110) ∧
      ((∃ d, (Factor.Insulin, d) ∈
          (whatIfRun m v (m.predict_proba v) v.BMI a.glucose a.insulin).changes) ↔
        a.insulin > 25) ∧
      (Suggestion.bmiHigh ∈ r.suggestions ↔ v.BMI > 22) ∧
      (Suggestion.glucoseElevated ∈ r.suggestions ↔ a.glucose > 110) ∧
      (Suggestion.insulinElevated ∈ r.suggestions ↔ a.insulin > 25) ∧
      (¬ v.BMI > 22 → ¬ a.glucose > 110 → ¬ a.insulin > 25 →
        r.counterfactual = none) := by
  have hassess : assess m a = .ok
      { prediction := m.predict v
        probability := m.predict_proba v
        suggestions := suggestionsOf v.BMI a.glucose a.insulin a.bloodPressure
          (family_history_encoded a.familyHistory)
        counterfactual := if m.predict v = 1 then
          what_if m v (m.predict_proba v) v.BMI a.glucose a.insulin else none } := by
    unfold assess
    rw [hv]
  refine ⟨_, hassess, rfl, ?_, whatIfRun_mem_BMI m v _ _ _ _,
    whatIfRun_mem_Glucose m v _ _ _ _, whatIfRun_mem_Insulin m v _ _ _ _,
    mem_suggestionsOf_bmiHigh _ _ _ _ _, mem_suggestionsOf_glucose _ _ _ _ _,
    mem_suggestionsOf_insulin _ _ _ _ _, ?_⟩
  · intro hcf
    by_contra hpred
    exact hcf (if_neg hpred)
  · intro h1 h2 h3
    dsimp only
    split_ifs with hpred
    · exact what_if_eq_none m v _ _ _ _ h1 h2 h3
    · rfl

/-- C3 exercised at the end-to-end scenario with a concrete classifier,
the encoding hypothesis discharged by the computed encoding. -/
theorem assess_counterfactual_gating_witness :
    ∃ r, assess (constModel 1 (1/2)) scenarioAttrs = .ok r ∧
      r.prediction = (constModel 1 (1/2)).predict scenarioRow ∧
      (r.counterfactual ≠ none → r.prediction = 1) ∧
      ((∃ d, (Factor.BMI, d) ∈
          (whatIfRun (constModel 1 (1/2)) scenarioRow
            ((constModel 1 (1/2)).predict_proba scenarioRow)
            scenarioRow.BMI scenarioAttrs.glucose scenarioAttrs.insulin).changes) ↔
        scenarioRow.BMI > 22) ∧
      ((∃ d, (Factor.Glucose, d) ∈
          (whatIfRun (constModel 1 (1/2)) scenarioRow
            ((constModel 1 (1/2)).predict_proba scenarioRow)
            scenarioRow.BMI scenarioAttrs.glucose scenarioAttrs.insulin).changes) ↔
        scenarioAttrs.glucose > 110) ∧
      ((∃ d, (Factor.Insulin, d) ∈
          (whatIfRun (constModel 1 (1/2)) scenarioRow
            ((constModel 1 (1/2)).predict_proba scenarioRow)
            scenarioRow.BMI scenarioAttrs.glucose scenarioAttrs.insulin).changes) ↔
        scenarioAttrs.insulin > 25) ∧
      (Suggestion.bmiHigh ∈ r.suggestions ↔ scenarioRow.BMI > 22) ∧
      (Suggestion.glucoseElevated ∈ r.suggestions ↔ scenarioAttrs.glucose > 110) ∧
      (Suggestion.insulinElevated ∈ r.suggestions ↔ scenarioAttrs.insulin > 25) ∧
      (¬ scenarioRow.BMI > 22 → ¬ scenarioAttrs.glucose > 110 →
        ¬ scenarioAttrs.insulin > 25 → r.counterfactual = none) :=
  assess_counterfactual_gating (constModel 1 (1/2)) scenarioAttrs scenarioRow
    encode_scenario

/-- C4: contrary to the claim, the source has no guard on height.  For
height = -120 cm (weight 30.72 kg) line 124 squares the negative height
and computes BMI = 21.33, encoding succeeds, and the classifier is
reached, producing a complete assessment; nothing raises an
`InvalidAttributeError` (a name that appears nowhere in the source), and
at height = 0 Python raises `ZeroDivisionError` instead. -/
theorem assess_negative_height_no_failure :
    encode negHeightAttrs = .ok negHeightRow ∧
    (∃ r, assess (constModel 1 (1/2)) negHeightAttrs = .ok r ∧
      r.probability = 1/2 ∧ r.prediction = 1) ∧
    encode { negHeightAttrs with height := 0 } =
      .error EncodeError.zeroDivisionError := by
  have hassess : assess (constModel 1 (1/2)) negHeightAttrs = .ok
      { prediction := 1
        probability := 1/2
        suggestions := suggestionsOf (2133/100) 130 30 95 1
        counterfactual := what_if (constModel 1 (1/2)) negHeightRow (1/2)
          (2133/100) 130 30 } := by
    unfold assess
    rw [encode_negHeight]
    rfl
  refine ⟨encode_negHeight, ⟨_, hassess, rfl, rfl⟩, ?_⟩
  unfold encode
  rw [if_pos (show ({ negHeightAttrs with height := 0 } :
    PatientAttributes).height = 0 from rfl)]

/-- C5: the encoded BMI is `weight / (height/100)^2` rounded to 2
decimal places (line 124), and at height 120 cm, weight 30.72 kg the
encoded BMI is exactly 21.33. -/
theorem encode_bmi_formula (a : PatientAttributes) (h : ¬ a.height = 0) :
    (∃ v, encode a = .ok v ∧
      v.BMI = round2 (a.weight / ((a.height / 100) ^ 2))) ∧
    (a.height = 120 → a.weight = 3072/100 →
      ∃ v, encode a = .ok v ∧ v.BMI = 2133/100) := by
  have henc : encode a = .ok
      { Age := a.age
        Sex := sex_encoded a.sex
        BMI := bmiOf a
        Glucose := a.glucose
        Insulin := a.insulin
        BloodPressure := a.bloodPressure
        PhysicalActivityLevel := activity_map a.activity
        FamilyHistory := family_history_encoded a.familyHistory } := by
    unfold encode
    rw [if_neg h]
  constructor
  · exact ⟨_, henc, rfl⟩
  · intro h1 h2
    refine ⟨_, henc, ?_⟩
    show bmiOf a = 2133/100
    have hr : bmiRaw a = 64/3 := by
      unfold bmiRaw
      rw [h1, h2]
      norm_num
    unfold bmiOf
    rw [hr, round2_eq_low (64/3) 2133 (by norm_num) (by norm_num)]
    norm_num

/-- C5 exercised at height 120 cm, weight 30.72 kg: the hypotheses are
discharged concretely and the encoded BMI is 21.33. -/
theorem encode_bmi_formula_witness :
    (∃ v, encode bmiAttrs = .ok v ∧
      v.BMI = round2 (bmiAttrs.weight / ((bmiAttrs.height / 100) ^ 2))) ∧
    (bmiAttrs.height = 120 → bmiAttrs.weight = 3072/100 →
      ∃ v, encode bmiAttrs = .ok v ∧ v.BMI = 2133/100) :=
  encode_bmi_formula bmiAttrs (by norm_num [bmiAttrs])

/-- C6: each suggestion of the Health Suggestions block (lines 152-161)
is emitted exactly when its strict-inequality condition holds (bmi > 22,
glucose > 110, insulin > 25, blood pressure > 120, family history yes),
the emitted list is a sublist of the fixed table order, and in
particular bmi = 22.0 yields no BMI warning while bmi = 22.01 does. -/
theorem suggestions_strict_thresholds_order (bmi g i bp : ℚ) (fh : Bool) :
    (Suggestion.bmiHigh ∈ suggestionsOf bmi g i bp (family_history_encoded fh) ↔
      bmi > 22) ∧
    (Suggestion.glucoseElevated ∈ suggestionsOf bmi g i bp (family_history_encoded fh) ↔
      g > 110) ∧
    (Suggestion.insulinElevated ∈ suggestionsOf bmi g i bp (family_history_encoded fh) ↔
      i > 25) ∧
    (Suggestion.highBloodPressure ∈ suggestionsOf bmi g i bp (family_history_encoded fh) ↔
      bp > 120) ∧
    (Suggestion.familyHistoryRisk ∈ suggestionsOf bmi g i bp (family_history_encoded fh) ↔
      fh = true) ∧
    List.Sublist (suggestionsOf bmi g i bp (family_history_encoded fh))
      [Suggestion.bmiHigh, Suggestion.glucoseElevated, Suggestion.insulinElevated,
       Suggestion.highBloodPressure, Suggestion.familyHistoryRisk] ∧
    Suggestion.bmiHigh ∉ suggestionsOf 22 g i bp (family_history_encoded fh) ∧
    Suggestion.bmiHigh ∈ suggestionsOf (2201/100) g i bp (family_history_encoded fh) := by
  refine ⟨mem_suggestionsOf_bmiHigh _ _ _ _ _, mem_suggestionsOf_glucose _ _ _ _ _,
    mem_suggestionsOf_insulin _ _ _ _ _, mem_suggestionsOf_bp _ _ _ _ _, ?_,
    suggestionsOf_sublist _ _ _ _ _, ?_, ?_⟩
  · rw [mem_suggestionsOf_family]
    cases fh <;> simp [family_history_encoded]
  · rw [mem_suggestionsOf_bmiHigh]
    norm_num
  · rw [mem_suggestionsOf_bmiHigh]
    norm_num

/-- C6 exercised at bmi 22 (and literal 22.01) with glucose 130,
insulin 30, blood pressure 95, family history yes. -/
theorem suggestions_strict_thresholds_order_witness :
    Suggestion.bmiHigh ∉ suggestionsOf 22 130 30 95 (family_history_encoded true) ∧
    Suggestion.bmiHigh ∈ suggestionsOf (2201/100) 130 30 95 (family_history_encoded true) :=
  ⟨(suggestions_strict_thresholds_order 22 130 30 95 true).2.2.2.2.2.2.1,
   (suggestions_strict_thresholds_order 22 130 30 95 true).2.2.2.2.2.2.2⟩

/-- C7: the encoder emits the 8 fields in the fixed column order Age,
Sex, BMI, Glucose, Insulin, BloodPressure, PhysicalActivityLevel,
FamilyHistory with the categorical mappings Male→1/Female→0,
Sedentary→0/Moderate→1/Active→2, yes→1/no→0 (lines 124-137); the
end-to-end scenario attributes encode to `[10,1,24.31,130,30,95,0,1]`. -/
theorem encode_order_and_mappings :
    sex_encoded Sex.Male = 1 ∧ sex_encoded Sex.Female = 0 ∧
    activity_map ActivityLevel.Sedentary = 0 ∧
    activity_map ActivityLevel.Moderate = 1 ∧
    activity_map ActivityLevel.Active = 2 ∧
    family_history_encoded true = 1 ∧ family_history_encoded false = 0 ∧
    (∀ (a : PatientAttributes) (v : InputData), encode a = .ok v →
      v.toRow = [a.age, sex_encoded a.sex, bmiOf a, a.glucose, a.insulin,
        a.bloodPressure, activity_map a.activity,
        family_history_encoded a.familyHistory] ∧
      v.toRow.length = 8) ∧
    (∃ v, encode scenarioAttrs = .ok v ∧
      v.toRow = [10, 1, 2431/100, 130, 30, 95, 0, 1]) := by
  refine ⟨rfl, rfl, rfl, rfl, rfl, rfl, rfl, ?_, ?_⟩
  · intro a v hv
    have h0 : ¬ a.height = 0 := by
      intro h
      unfold encode at hv
      rw [if_pos h] at hv
      exact Except.noConfusion hv
    unfold encode at hv
    rw [if_neg h0] at hv
    injection hv with h
    subst h
    exact ⟨rfl, rfl⟩
  · exact ⟨_, encode_scenario, rfl⟩

/-- C7 exercised: the row computed for the scenario attributes, with the
encoding hypothesis discharged by the computed encoding. -/
theorem encode_order_and_mappings_witness :
    scenarioRow.toRow = [scenarioAttrs.age, sex_encoded scenarioAttrs.sex,
      bmiOf scenarioAttrs, scenarioAttrs.glucose, scenarioAttrs.insulin,
      scenarioAttrs.bloodPressure, activity_map scenarioAttrs.activity,
      family_history_encoded scenarioAttrs.familyHistory] ∧
    scenarioRow.toRow.length = 8 :=
  encode_order_and_mappings.2.2.2.2.2.2.2.1 scenarioAttrs scenarioRow encode_scenario

/-- C8: the prediction section is a pure function of the attributes and
the classifier: two classifiers that agree pointwise on `predict` and
`predict_proba` give identical assessment results on the same
attributes (so two runs with identical inputs and a fixed classifier
return identical label, probability, suggestions and counterfactual). -/
theorem assess_deterministic (m1 m2 : Model) (a : PatientAttributes)
    (hp : ∀ v, m1.predict v = m2.predict v)
    (hq : ∀ v, m1.predict_proba v = m2.predict_proba v) :
    assess m1 a = assess m2 a := by
  obtain ⟨f1, g1⟩ := m1
  obtain ⟨f2, g2⟩ := m2
  have hf : f1 = f2 := funext hp
  have hg : g1 = g2 := funext hq
  subst hf
  subst hg
  rfl

/-- C8 exercised on two syntactically different but pointwise equal
classifier stubs. -/
theorem assess_deterministic_witness :
    assess (constModel 1 (1/2)) scenarioAttrs = assess constModelAlt scenarioAttrs :=
  assess_deterministic (constModel 1 (1/2)) constModelAlt scenarioAttrs
    (fun _ => rfl) (fun v => by simp [constModel, constModelAlt])

/-- With the boundary row (rounded BMI exactly 22), the what-if loop
probes Glucose and Insulin only. -/
lemma boundary_probes (m : Model) (p0 : ℚ) :
    (whatIfRun m boundaryRow p0 boundaryRow.BMI boundaryAttrs.glucose
      boundaryAttrs.insulin).probes =
      [(Factor.Glucose, { boundaryRow with Glucose := 100 }),
       (Factor.Insulin, { boundaryRow with Insulin := 20 })] := by
  unfold whatIfRun bmiStep glucoseStep insulinStep
  rw [if_neg (show ¬ boundaryRow.BMI > 22 by norm_num [boundaryRow]),
    if_pos (show boundaryAttrs.glucose > 110 by norm_num [boundaryAttrs]),
    if_pos (show boundaryAttrs.insulin > 25 by norm_num [boundaryAttrs])]
  rfl

/-- C10: lines 152 and 173 test `bmi > 22` on the rounded value from
line 124, not on the raw ratio: for height 100 cm, weight 22.004 kg the
raw BMI 22.004 exceeds 22 but rounds to 22.00, so no BMI warning is
emitted and the what-if loop never probes BMI. -/
theorem bmi_threshold_on_rounded_value :
    bmiRaw boundaryAttrs > 22 ∧
    bmiOf boundaryAttrs = 22 ∧
    encode boundaryAttrs = .ok boundaryRow ∧
    (∀ m : Model, ∃ r, assess m boundaryAttrs = .ok r ∧
      Suggestion.bmiHigh ∉ r.suggestions) ∧
    (∀ (m : Model) (p0 : ℚ) (q : Factor × InputData),
      q ∈ (whatIfRun m boundaryRow p0 boundaryRow.BMI boundaryAttrs.glucose
        boundaryAttrs.insulin).probes → q.1 ≠ Factor.BMI) := by
  refine ⟨?_, bmiOf_boundary, encode_boundary, ?_, ?_⟩
  · rw [bmiRaw_boundary]
    norm_num
  · intro m
    have hassess : assess m boundaryAttrs = .ok
        { prediction := m.predict boundaryRow
          probability := m.predict_proba boundaryRow
          suggestions := suggestionsOf boundaryRow.BMI boundaryAttrs.glucose
            boundaryAttrs.insulin boundaryAttrs.bloodPressure
            (family_history_encoded boundaryAttrs.familyHistory)
          counterfactual := if m.predict boundaryRow = 1 then
            what_if m boundaryRow (m.predict_proba boundaryRow) boundaryRow.BMI
              boundaryAttrs.glucose boundaryAttrs.insulin else none } := by
      unfold assess
      rw [encode_boundary]
    refine ⟨_, hassess, ?_⟩
    rw [mem_suggestionsOf_bmiHigh]
    norm_num [boundaryRow]
  · intro m p0 q hq
    rw [boundary_probes] at hq
    rcases List.mem_cons.mp hq with rfl | hq
    · simp
    · rcases List.mem_cons.mp hq with rfl | hq
      · simp
      · simp at hq

/-- C10 exercised: the Glucose probe is in the probe list and is not a
BMI probe, with the membership hypothesis discharged concretely. -/
theorem bmi_threshold_on_rounded_value_witness :
    (Factor.Glucose, ({ boundaryRow with Glucose := 100 } : InputData)) ∈
      (whatIfRun (constModel 1 (1/2)) boundaryRow (1/2) boundaryRow.BMI
        boundaryAttrs.glucose boundaryAttrs.insulin).probes ∧
    (Factor.Glucose, ({ boundaryRow with Glucose := 100 } : InputData)).1 ≠
      Factor.BMI := by
  have hmem : (Factor.Glucose, ({ boundaryRow with Glucose := 100 } : InputData)) ∈
      (whatIfRun (constModel 1 (1/2)) boundaryRow (1/2) boundaryRow.BMI
        boundaryAttrs.glucose boundaryAttrs.insulin).probes := by
    rw [boundary_probes]
    exact List.mem_cons_self _ _
  exact ⟨hmem,
    bmi_threshold_on_rounded_value.2.2.2.2 (constModel 1 (1/2)) (1/2) _ hmem⟩

end DiabetesApp
